import Mathlib

/-!
Shallow embedding of the open-lx01 Azure TTS client
(`src/server/tts/azure.py`, `src/server/tts/service.py`,
`src/server/common/config.py`).

Python strings are modelled as `List Char`, byte strings as `List Nat`.
The network is modelled as an oracle `Nat → HTTPResponse` giving the
response to the n-th POST issued, together with a trace of the requests
issued so far; `requests.post` appends to the trace and consults the
oracle.  Exceptions are modelled with `Except`.
-/

/-- Python `str`, modelled as a list of characters. -/
abbrev PyStr := List Char

/-- The characters of a Lean string literal, used to transcribe Python
string literals. -/
def str2l (s : String) : PyStr := s.data

/-- A list of `n` spaces, transcribing the indentation of the Python
source's multi-line f-string. -/
def sp (n : Nat) : PyStr := List.replicate n ' '

/-- The parts of a `requests.Response` the client reads: `status_code`,
`text` and `content`. -/
structure HTTPResponse where
  status_code : Nat
  text : PyStr
  content : List Nat
deriving DecidableEq

/-- A POST request as issued by `requests.post(url, headers=..., data=...)`:
the url, the header dictionary (as an association list in source order) and
the body (`data`, empty when the call passes none). -/
structure HTTPRequest where
  url : PyStr
  headers : List (PyStr × PyStr)
  body : PyStr
deriving DecidableEq

/-- The network world: an oracle giving the response to the n-th request
issued, and the trace of requests issued so far. -/
structure NetState where
  net : Nat → HTTPResponse
  trace : List HTTPRequest

/-- Model of `requests.post`: records the request in the trace and returns
the oracle's response for this position. -/
def requests_post (ns : NetState) (req : HTTPRequest) : HTTPResponse × NetState :=
  (ns.net ns.trace.length, { ns with trace := ns.trace ++ [req] })

/-- `class AzureTTSError(Exception)` of `tts/azure.py`: carries its
message string. -/
structure AzureTTSError where
  message : PyStr
deriving DecidableEq

/-- The state of an `AzureTTS` instance (`tts/azure.py`): the four
constructor-supplied fields, the two URLs built in `__init__`, and the
cached access token (`_access_token`). -/
structure AzureTTS where
  subscription_key : PyStr
  region : PyStr
  voice : PyStr
  output_format : PyStr
  base_url : PyStr
  token_url : PyStr
  access_token : Option PyStr
deriving DecidableEq

/-- `AzureTTS.__init__`: stores the four fields, builds `base_url` and
`token_url` from the region by string substitution, and sets
`_access_token = None`. -/
def AzureTTS.init (subscription_key region : PyStr)
    (voice : PyStr := str2l "en-US-JessaNeural")
    (output_format : PyStr := str2l "riff-24khz-16bit-mono-pcm") : AzureTTS :=
  { subscription_key := subscription_key
    region := region
    voice := voice
    output_format := output_format
    base_url := str2l "https://" ++ region
      ++ str2l ".tts.speech.microsoft.com/cognitiveservices/v1"
    token_url := str2l "https://" ++ region
      ++ str2l ".api.cognitive.microsoft.com/sts/v1.0/issueToken"
    access_token := none }

/-- The POST issued by `AzureTTS.get_token`: token url, the two headers of
the source, no body. -/
def token_request (c : AzureTTS) : HTTPRequest :=
  { url := c.token_url
    headers := [(str2l "Ocp-Apim-Subscription-Key", c.subscription_key),
                (str2l "Content-type", str2l "application/x-www-form-urlencoded")]
    body := [] }

/-- `AzureTTS.get_token`: POSTs to the token endpoint; on status 200 caches
`response.text` in `_access_token` and returns it, otherwise raises
`AzureTTSError(f"Failed to get access token: {status_code} - {text}")`. -/
def AzureTTS.get_token (c : AzureTTS) (ns : NetState) :
    Except AzureTTSError PyStr × AzureTTS × NetState :=
  let response := (requests_post ns (token_request c)).1
  let ns1 := (requests_post ns (token_request c)).2
  if response.status_code = 200 then
    (Except.ok response.text,
     { c with access_token := some response.text }, ns1)
  else
    (Except.error { message := str2l "Failed to get access token: "
        ++ (Nat.repr response.status_code).data ++ str2l " - " ++ response.text },
     c, ns1)

/-- The predicate of Python's `[ \t]` character class used by
`textwrap.dedent`. -/
def isPyWs (c : Char) : Bool := c = ' ' || c = '\t'

/-- Split a string on newline characters (Python's line structure, as the
MULTILINE regexes of `textwrap.dedent` see it). -/
def splitLines : PyStr → List PyStr
  | [] => [[]]
  | c :: cs =>
    let r := splitLines cs
    if c = '\n' then [] :: r else (c :: r.headI) :: r.tail

/-- Join lines back with newline characters (inverse of `splitLines`). -/
def joinLines : List PyStr → PyStr
  | [] => []
  | [l] => l
  | l :: ls => l ++ '\n' :: joinLines ls

/-- `textwrap.dedent` step 1, the substitution of `^[ \t]+$` by the empty
string: a nonempty line made only of spaces and tabs becomes empty. -/
def blankWsLine (l : PyStr) : PyStr :=
  if !l.isEmpty && l.all isPyWs then [] else l

/-- Longest common prefix of two strings — the net effect of
`textwrap.dedent`'s margin update (`startswith` in either direction, else
truncation at the first mismatch). -/
def lcp : PyStr → PyStr → PyStr
  | a :: as, b :: bs => if a = b then a :: lcp as bs else []
  | _, _ => []

/-- `textwrap.dedent`'s margin: the common prefix of the leading
space/tab runs of every line that has a character outside `[ \t]`
(lines with nothing else were blanked before and match no indent). -/
def margin (lines : List PyStr) : PyStr :=
  match (lines.filter (fun l => l.any (fun c => !isPyWs c))).map
      (fun l => l.takeWhile isPyWs) with
  | [] => []
  | i :: is => is.foldl lcp i

/-- `textwrap.dedent` step 3, the substitution of `(?m)^margin` by the
empty string: a line starting with the margin loses it. -/
def dedentLine (m : PyStr) (l : PyStr) : PyStr :=
  if m.isPrefixOf l then l.drop m.length else l

/-- `textwrap.dedent` from the Python standard library, as used by
`AzureTTS._build_ssml`. -/
def dedent (s : PyStr) : PyStr :=
  let lines := (splitLines s).map blankWsLine
  joinLines (lines.map (dedentLine (margin lines)))

/-- The f-string of `AzureTTS._build_ssml` before dedenting, with the
source file's exact indentation (12/16/20/16/12 spaces) and interpolations. -/
def ssml_raw (voice text language : PyStr) : PyStr :=
  sp 12 ++ str2l "<speak version='1.0' xmlns='http://www.w3.org/2001/10/synthesis' xml:lang='"
    ++ language ++ str2l "'>" ++ '\n' ::
  (sp 16 ++ str2l "<voice name='" ++ voice ++ str2l "'>" ++ '\n' ::
  (sp 20 ++ text ++ '\n' ::
  (sp 16 ++ str2l "</voice>" ++ '\n' ::
  (sp 12 ++ str2l "</speak>"))))

/-- `AzureTTS._build_ssml`: interpolates language, configured voice and
text into the f-string and applies `textwrap.dedent`; the language
defaults to `en-US`. -/
def AzureTTS.build_ssml (c : AzureTTS) (text : PyStr)
    (language : PyStr := str2l "en-US") : PyStr :=
  dedent (ssml_raw c.voice text language)

/-- The POST issued by `AzureTTS.synthesize_to_bytes`: synthesis url, the
four headers of the source (with `Bearer` prefixed to the token just
fetched), and the built markup as body. -/
def synth_request (c : AzureTTS) (token body : PyStr) : HTTPRequest :=
  { url := c.base_url
    headers := [(str2l "Authorization", str2l "Bearer " ++ token),
                (str2l "Content-Type", str2l "application/ssml+xml"),
                (str2l "X-Microsoft-OutputFormat", c.output_format),
                (str2l "User-Agent", str2l "open-lx01-tts")]
    body := body }

/-- `AzureTTS.synthesize_to_bytes`: fetches a token with `get_token`
(propagating its exception), builds the markup, POSTs it to the synthesis
endpoint; on status 200 returns `response.content`, otherwise raises
`AzureTTSError(f"Failed to synthesize speech: {status_code} - {text}")`. -/
def AzureTTS.synthesize_to_bytes (c : AzureTTS) (text : PyStr)
    (language : PyStr := str2l "en-US") (ns : NetState) :
    Except AzureTTSError (List Nat) × AzureTTS × NetState :=
  match c.get_token ns with
  | (Except.error e, c1, ns1) => (Except.error e, c1, ns1)
  | (Except.ok token, c1, ns1) =>
    let ssml_body := c1.build_ssml text language
    let pr := requests_post ns1 (synth_request c1 token ssml_body)
    if pr.1.status_code = 200 then
      (Except.ok pr.1.content, c1, pr.2)
    else
      (Except.error { message := str2l "Failed to synthesize speech: "
          ++ (Nat.repr pr.1.status_code).data ++ str2l " - " ++ pr.1.text },
       c1, pr.2)

/-- Model of `io.BytesIO`: the buffer and the current read position. -/
structure ByteStream where
  data : List Nat
  pos : Nat
deriving DecidableEq

/-- `BytesIO(data)`: a fresh stream positioned at offset 0. -/
def ByteStream.new (data : List Nat) : ByteStream := { data := data, pos := 0 }

/-- `BytesIO.read()` with no size: returns everything from the current
position and moves the position to the end. -/
def ByteStream.read (b : ByteStream) : List Nat × ByteStream :=
  (b.data.drop b.pos, { b with pos := b.data.length })

/-- `AzureTTS.synthesize_to_stream`: wraps the bytes from
`synthesize_to_bytes` in a fresh in-memory stream. -/
def AzureTTS.synthesize_to_stream (c : AzureTTS) (text : PyStr)
    (language : PyStr := str2l "en-US") (ns : NetState) :
    Except AzureTTSError ByteStream × AzureTTS × NetState :=
  match c.synthesize_to_bytes text language ns with
  | (Except.ok audio_data, c1, ns1) => (Except.ok (ByteStream.new audio_data), c1, ns1)
  | (Except.error e, c1, ns1) => (Except.error e, c1, ns1)

/-- `AzureTTS.synthesize_to_file`: gets the bytes from
`synthesize_to_bytes` and writes them to the file; the write is modelled
by returning the pair (filename, written bytes). -/
def AzureTTS.synthesize_to_file (c : AzureTTS) (text filename : PyStr)
    (language : PyStr := str2l "en-US") (ns : NetState) :
    Except AzureTTSError (PyStr × List Nat) × AzureTTS × NetState :=
  match c.synthesize_to_bytes text language ns with
  | (Except.ok audio_data, c1, ns1) => (Except.ok (filename, audio_data), c1, ns1)
  | (Except.error e, c1, ns1) => (Except.error e, c1, ns1)

/-- `AzureTTS.synthesize`, the legacy alias: delegates to
`synthesize_to_file` with the default language. -/
def AzureTTS.synthesize (c : AzureTTS) (text filename : PyStr) (ns : NetState) :
    Except AzureTTSError (PyStr × List Nat) × AzureTTS × NetState :=
  c.synthesize_to_file text filename (str2l "en-US") ns

/-- `AzureTTSConfig` of `common/config.py` with its pydantic defaults. -/
structure AzureTTSConfig where
  subscription_key : PyStr
  region : PyStr
  voice : PyStr := str2l "en-US-JessaNeural"
  output_format : PyStr := str2l "riff-24khz-16bit-mono-pcm"
deriving DecidableEq

/-- `DataBaseConfig` of `common/config.py`. -/
structure DataBaseConfig where
  url : PyStr
deriving DecidableEq

/-- `MoonshotConfig` of `common/config.py` (the `LLMConfig` variant
`load_config` always builds), with `prompt`'s default. -/
structure MoonshotConfig where
  prompt : Option PyStr := some []
  token : PyStr
deriving DecidableEq

/-- `Config` of `common/config.py`, with its `llm` field specialised to
the `MoonshotConfig` alternative that `load_config` constructs. -/
structure Config where
  db : Option DataBaseConfig := none
  llm : MoonshotConfig
  azure_tts : Option AzureTTSConfig := none

/-- An environment: `os.environ`, a partial map from variable names to
values (`none` = unset). -/
abbrev Env := PyStr → Option PyStr

/-- Python truthiness of an `os.getenv` result: `None` and the empty
string are falsy. -/
def truthy : Option PyStr → Bool
  | none => false
  | some s => !s.isEmpty

/-- `os.getenv(key, default)`: the default only replaces an unset
variable, never an empty one. -/
def getenvD (env : Env) (k d : PyStr) : PyStr :=
  match env k with
  | none => d
  | some v => v

/-- `x or ""` applied to an `os.getenv` result. -/
def orEmpty : Option PyStr → PyStr
  | none => []
  | some s => if s.isEmpty then [] else s

/-- `load_config` of `common/config.py`: builds the Azure TTS
configuration only when both `AZURE_TTS_SUBSCRIPTION_KEY` and
`AZURE_TTS_REGION` are truthy (set and nonempty). -/
def load_config (env : Env) : Config :=
  let azure_tts_config : Option AzureTTSConfig :=
    if truthy (env (str2l "AZURE_TTS_SUBSCRIPTION_KEY"))
        && truthy (env (str2l "AZURE_TTS_REGION")) then
      some { subscription_key := getenvD env (str2l "AZURE_TTS_SUBSCRIPTION_KEY") []
             region := getenvD env (str2l "AZURE_TTS_REGION") []
             voice := getenvD env (str2l "AZURE_TTS_VOICE") (str2l "en-US-JessaNeural")
             output_format := getenvD env (str2l "AZURE_TTS_OUTPUT_FORMAT")
               (str2l "riff-24khz-16bit-mono-pcm") }
    else none
  { db := some { url := str2l "sqlite:///db.sqlite3" }
    llm := { token := orEmpty (env (str2l "MOONSHOT_API_KEY")) }
    azure_tts := azure_tts_config }

/-- `TTSService` of `tts/service.py`: holds the `AzureTTS` client. -/
structure TTSService where
  azure_tts : AzureTTS

/-- `TTSService.__init__`: constructs the inner client from the four
configuration fields. -/
def TTSService.init (azure_config : AzureTTSConfig) : TTSService :=
  { azure_tts := AzureTTS.init azure_config.subscription_key azure_config.region
      azure_config.voice azure_config.output_format }

/-- `get_tts_service` of `tts/service.py`: `None` for a missing
configuration, a constructed `TTSService` otherwise. -/
def get_tts_service : Option AzureTTSConfig → Option TTSService
  | none => none
  | some azure_config => some (TTSService.init azure_config)

/-! ## Basic facts about the embedded operations -/

/-- Evaluation of `get_token` when the token endpoint answers 200. -/
lemma get_token_pos (c : AzureTTS) (ns : NetState)
    (h : (ns.net ns.trace.length).status_code = 200) :
    c.get_token ns = (Except.ok (ns.net ns.trace.length).text,
      { c with access_token := some (ns.net ns.trace.length).text },
      { ns with trace := ns.trace ++ [token_request c] }) := by
  simp [AzureTTS.get_token, requests_post, h]

/-- Evaluation of `get_token` when the token endpoint answers non-200. -/
lemma get_token_neg (c : AzureTTS) (ns : NetState)
    (h : ¬ (ns.net ns.trace.length).status_code = 200) :
    c.get_token ns = (Except.error { message := str2l "Failed to get access token: "
        ++ (Nat.repr (ns.net ns.trace.length).status_code).data ++ str2l " - "
        ++ (ns.net ns.trace.length).text },
      c, { ns with trace := ns.trace ++ [token_request c] }) := by
  simp [AzureTTS.get_token, requests_post, h]

/-- C2: for every client, `get_token` returns the token-endpoint response
body and stores that same string in the cached-token field when the token
POST returns HTTP 200, and raises an `AzureTTSError` whose message contains
the numeric status code and the response body when the token POST returns
any other status; it raises in exactly those non-200 cases. -/
theorem get_token_status_spec (c : AzureTTS) (ns : NetState) :
    ((ns.net ns.trace.length).status_code = 200 →
      (c.get_token ns).1 = Except.ok (ns.net ns.trace.length).text
      ∧ (c.get_token ns).2.1
          = { c with access_token := some (ns.net ns.trace.length).text })
    ∧ ((ns.net ns.trace.length).status_code ≠ 200 →
      ∃ e, (c.get_token ns).1 = Except.error e
        ∧ (Nat.repr (ns.net ns.trace.length).status_code).data <:+: e.message
        ∧ (ns.net ns.trace.length).text <:+: e.message)
    ∧ ((∃ t, (c.get_token ns).1 = Except.ok t)
        ↔ (ns.net ns.trace.length).status_code = 200) := by
  by_cases h : (ns.net ns.trace.length).status_code = 200
  · refine ⟨fun _ => ?_, fun hne => absurd h hne, ?_⟩
    · rw [get_token_pos c ns h]; exact ⟨rfl, rfl⟩
    · exact ⟨fun _ => h, fun _ => ⟨(ns.net ns.trace.length).text,
        by rw [get_token_pos c ns h]⟩⟩
  · refine ⟨fun hp => absurd hp h, fun _ => ?_, ?_⟩
    · refine ⟨{ message := str2l "Failed to get access token: "
          ++ (Nat.repr (ns.net ns.trace.length).status_code).data ++ str2l " - "
          ++ (ns.net ns.trace.length).text }, by rw [get_token_neg c ns h], ?_, ?_⟩
      · exact ⟨str2l "Failed to get access token: ",
          str2l " - " ++ (ns.net ns.trace.length).text, by simp⟩
      · exact ⟨str2l "Failed to get access token: "
          ++ (Nat.repr (ns.net ns.trace.length).status_code).data ++ str2l " - ",
          [], by simp⟩
    · constructor
      · rintro ⟨t, ht⟩
        rw [get_token_neg c ns h] at ht
        cases ht
      · intro hp; exact absurd hp h

/-- C9: when the token endpoint answers non-200, `get_token` raises and
leaves the whole client state — in particular the cached access token —
exactly as it was. -/
theorem get_token_failure_frame (c : AzureTTS) (ns : NetState)
    (h : (ns.net ns.trace.length).status_code ≠ 200) :
    (c.get_token ns).2.1 = c := by
  rw [get_token_neg c ns h]

/-! ## Concrete fixtures for the witnesses -/

/-- A client as in the repository's tests: key `test_key`, region
`eastus`, default voice and format. -/
def tts0 : AzureTTS := AzureTTS.init (str2l "test_key") (str2l "eastus")

/-- The test client with a previously cached token. -/
def ttsCached : AzureTTS := { tts0 with access_token := some (str2l "OLD_TOKEN") }

/-- A 200 token response with body `TOK123`. -/
def respTok : HTTPResponse := { status_code := 200, text := str2l "TOK123", content := [] }

/-- A 200 synthesis response with body bytes `\x00\x01AUDIO`. -/
def respAudio : HTTPResponse :=
  { status_code := 200, text := [], content := [0, 1, 65, 85, 68, 73, 79] }

/-- A 400 response with body `Bad Request`. -/
def resp400 : HTTPResponse := { status_code := 400, text := str2l "Bad Request", content := [] }

/-- A 401 response with body `Unauthorized`. -/
def resp401 : HTTPResponse := { status_code := 401, text := str2l "Unauthorized", content := [] }

/-- A world where the token fetch succeeds and the synthesis succeeds. -/
def netOk : NetState := { net := fun n => if n = 0 then respTok else respAudio, trace := [] }

/-- A world where the token fetch succeeds and the synthesis fails with 400. -/
def netBad : NetState := { net := fun n => if n = 0 then respTok else resp400, trace := [] }

/-- A world where every request is answered 401. -/
def net401 : NetState := { net := fun _ => resp401, trace := [] }

/-- C9 witness: with a cached token and a 401 token endpoint, the failed
refresh leaves the cached value in place. -/
theorem get_token_failure_frame_witness :
    (net401.net net401.trace.length).status_code ≠ 200
    ∧ (ttsCached.get_token net401).2.1 = ttsCached :=
  ⟨by decide, get_token_failure_frame ttsCached net401 (by decide)⟩

/-- C7: the factory returns `none` for a missing configuration, and for a
present configuration a facade whose inner client's key, region, voice and
output format equal the configuration's fields. -/
theorem get_tts_service_spec :
    get_tts_service none = none
    ∧ ∀ cfg : AzureTTSConfig, ∃ s : TTSService,
        get_tts_service (some cfg) = some s
        ∧ s.azure_tts.subscription_key = cfg.subscription_key
        ∧ s.azure_tts.region = cfg.region
        ∧ s.azure_tts.voice = cfg.voice
        ∧ s.azure_tts.output_format = cfg.output_format :=
  ⟨rfl, fun cfg => ⟨TTSService.init cfg, rfl, rfl, rfl, rfl, rfl⟩⟩

/-- C10: if the subscription-key variable or the region variable is unset
or set to the empty string, `load_config` carries no TTS configuration and
the factory consequently yields no service. -/
theorem load_config_truthiness_gate (env : Env)
    (h : env (str2l "AZURE_TTS_SUBSCRIPTION_KEY") = none
       ∨ env (str2l "AZURE_TTS_SUBSCRIPTION_KEY") = some []
       ∨ env (str2l "AZURE_TTS_REGION") = none
       ∨ env (str2l "AZURE_TTS_REGION") = some []) :
    (load_config env).azure_tts = none
    ∧ get_tts_service (load_config env).azure_tts = none := by
  have hfalse : (truthy (env (str2l "AZURE_TTS_SUBSCRIPTION_KEY"))
      && truthy (env (str2l "AZURE_TTS_REGION"))) = false := by
    rcases h with h | h | h | h <;> simp [h, truthy]
  have hnone : (load_config env).azure_tts = none := by
    simp [load_config, hfalse]
  exact ⟨hnone, by rw [hnone]; rfl⟩

/-- An environment where the subscription key is set to the empty string
and everything else to `eastus`. -/
def env0 : Env :=
  fun k => if k = str2l "AZURE_TTS_SUBSCRIPTION_KEY" then some [] else some (str2l "eastus")

/-- C10 witness: with the key variable present but empty, no TTS
configuration and no service are produced. -/
theorem load_config_truthiness_gate_witness :
    (load_config env0).azure_tts = none
    ∧ get_tts_service (load_config env0).azure_tts = none :=
  load_config_truthiness_gate env0 (Or.inr (Or.inl (by decide)))

/-- Evaluation of `synthesize_to_bytes` when the token fetch succeeds: one
token request, then one synthesis request carrying the fresh token, the
result decided by the second response's status. -/
lemma stb_pos (c : AzureTTS) (text language : PyStr) (ns : NetState)
    (htok : (ns.net ns.trace.length).status_code = 200) :
    c.synthesize_to_bytes text language ns =
      (if (ns.net (ns.trace.length + 1)).status_code = 200 then
        Except.ok (ns.net (ns.trace.length + 1)).content
       else Except.error { message := str2l "Failed to synthesize speech: "
          ++ (Nat.repr (ns.net (ns.trace.length + 1)).status_code).data ++ str2l " - "
          ++ (ns.net (ns.trace.length + 1)).text },
       { c with access_token := some (ns.net ns.trace.length).text },
       { ns with trace := ns.trace ++ [token_request c,
           synth_request c (ns.net ns.trace.length).text (c.build_ssml text language)] }) := by
  unfold AzureTTS.synthesize_to_bytes
  rw [get_token_pos c ns htok]
  simp only [requests_post, List.length_append, List.length_cons, List.length_nil]
  split <;> simp [List.append_assoc] <;> rfl

/-- Evaluation of `synthesize_to_bytes` when the token fetch fails: the
token error propagates and no synthesis request is issued. -/
lemma stb_neg_tok (c : AzureTTS) (text language : PyStr) (ns : NetState)
    (htok : ¬ (ns.net ns.trace.length).status_code = 200) :
    c.synthesize_to_bytes text language ns =
      (Except.error { message := str2l "Failed to get access token: "
          ++ (Nat.repr (ns.net ns.trace.length).status_code).data ++ str2l " - "
          ++ (ns.net ns.trace.length).text },
       c, { ns with trace := ns.trace ++ [token_request c] }) := by
  unfold AzureTTS.synthesize_to_bytes
  rw [get_token_neg c ns htok]

/-- C1: given a successful token fetch, `synthesize_to_bytes` returns
exactly the synthesis response body as raw bytes when the synthesis POST
returns HTTP 200, and raises an `AzureTTSError` whose message contains the
numeric status code and the response body text when the synthesis POST
returns any other status; it raises in exactly those non-200 cases. -/
theorem synthesize_to_bytes_status_spec (c : AzureTTS) (text language : PyStr)
    (ns : NetState) (htok : (ns.net ns.trace.length).status_code = 200) :
    ((ns.net (ns.trace.length + 1)).status_code = 200 →
      (c.synthesize_to_bytes text language ns).1
        = Except.ok (ns.net (ns.trace.length + 1)).content)
    ∧ ((ns.net (ns.trace.length + 1)).status_code ≠ 200 →
      ∃ e, (c.synthesize_to_bytes text language ns).1 = Except.error e
        ∧ (Nat.repr (ns.net (ns.trace.length + 1)).status_code).data <:+: e.message
        ∧ (ns.net (ns.trace.length + 1)).text <:+: e.message)
    ∧ ((∃ b, (c.synthesize_to_bytes text language ns).1 = Except.ok b)
        ↔ (ns.net (ns.trace.length + 1)).status_code = 200) := by
  rw [stb_pos c text language ns htok]
  by_cases hs : (ns.net (ns.trace.length + 1)).status_code = 200
  · refine ⟨fun _ => by simp [hs], fun hne => absurd hs hne, ?_⟩
    simp [hs]
  · refine ⟨fun hp => absurd hp hs, fun _ => ?_, ?_⟩
    · refine ⟨{ message := str2l "Failed to synthesize speech: "
          ++ (Nat.repr (ns.net (ns.trace.length + 1)).status_code).data ++ str2l " - "
          ++ (ns.net (ns.trace.length + 1)).text }, by simp [hs], ?_, ?_⟩
      · exact ⟨str2l "Failed to synthesize speech: ",
          str2l " - " ++ (ns.net (ns.trace.length + 1)).text, by simp⟩
      · exact ⟨str2l "Failed to synthesize speech: "
          ++ (Nat.repr (ns.net (ns.trace.length + 1)).status_code).data ++ str2l " - ",
          [], by simp⟩
    · constructor
      · rintro ⟨b, hb⟩
        rw [if_neg hs] at hb
        cases hb
      · intro hp; exact absurd hp hs

/-- C1 witness: with the test client, a 200 token fetch and a 200
synthesis answer yield the audio bytes; a 400 synthesis answer yields an
error mentioning 400 and the body. -/
theorem synthesize_to_bytes_status_spec_witness :
    (tts0.synthesize_to_bytes (str2l "hi") (str2l "en-US") netOk).1
      = Except.ok (netOk.net (netOk.trace.length + 1)).content
    ∧ ∃ e, (tts0.synthesize_to_bytes (str2l "hi") (str2l "en-US") netBad).1
        = Except.error e
      ∧ (Nat.repr (netBad.net (netBad.trace.length + 1)).status_code).data <:+: e.message
      ∧ (netBad.net (netBad.trace.length + 1)).text <:+: e.message :=
  ⟨(synthesize_to_bytes_status_spec tts0 (str2l "hi") (str2l "en-US") netOk
      (by decide)).1 (by decide),
   (synthesize_to_bytes_status_spec tts0 (str2l "hi") (str2l "en-US") netBad
      (by decide)).2.1 (by decide)⟩

/-- C3: every `synthesize_to_bytes` call issues the token request first
and exactly once, issues the synthesis request (with `Bearer` plus the
freshly fetched token in its `Authorization` header, see `synth_request`)
only after and only when the token fetch succeeded, and neither the
issued requests nor the result depend on the previously cached token. -/
theorem synthesize_to_bytes_trace_spec (c : AzureTTS) (text language : PyStr)
    (ns : NetState) :
    (c.synthesize_to_bytes text language ns).2.2.trace
      = ns.trace ++ token_request c ::
          (if (ns.net ns.trace.length).status_code = 200 then
            [synth_request c (ns.net ns.trace.length).text (c.build_ssml text language)]
           else [])
    ∧ ∀ t : Option PyStr,
        (AzureTTS.synthesize_to_bytes { c with access_token := t } text language ns).1
          = (c.synthesize_to_bytes text language ns).1
        ∧ (AzureTTS.synthesize_to_bytes { c with access_token := t } text language ns).2.2
          = (c.synthesize_to_bytes text language ns).2.2 := by
  by_cases h : (ns.net ns.trace.length).status_code = 200
  · constructor
    · rw [stb_pos c text language ns h]; simp [h]
    · intro t
      rw [stb_pos c text language ns h,
        stb_pos { c with access_token := t } text language ns h]
      exact ⟨rfl, rfl⟩
  · constructor
    · rw [stb_neg_tok c text language ns h]; simp [h]
    · intro t
      rw [stb_neg_tok c text language ns h,
        stb_neg_tok { c with access_token := t } text language ns h]
      exact ⟨rfl, rfl⟩

/-- C6: `synthesize_to_stream` wraps exactly the bytes of
`synthesize_to_bytes` in a fresh stream, and a fresh stream has read
position 0 and reads back exactly its buffer. -/
theorem synthesize_to_stream_spec (c : AzureTTS) (text language : PyStr)
    (ns : NetState) :
    (c.synthesize_to_stream text language ns).1
      = Except.map ByteStream.new (c.synthesize_to_bytes text language ns).1
    ∧ ∀ data : List Nat,
        (ByteStream.new data).pos = 0 ∧ (ByteStream.new data).read.1 = data := by
  constructor
  · unfold AzureTTS.synthesize_to_stream
    rcases hr : c.synthesize_to_bytes text language ns with ⟨r, c1, ns1⟩
    cases r <;> simp [Except.map]
  · intro data
    exact ⟨rfl, by simp [ByteStream.new, ByteStream.read]⟩

/-- The configuration-carrying fields of a client (everything but the
cached token) are the same in `b` as in `a`. -/
def config_preserved (a b : AzureTTS) : Prop :=
  b.subscription_key = a.subscription_key ∧ b.region = a.region ∧ b.voice = a.voice
  ∧ b.output_format = a.output_format ∧ b.base_url = a.base_url
  ∧ b.token_url = a.token_url

/-- `get_token` preserves every configuration field. -/
lemma config_preserved_get_token (c : AzureTTS) (ns : NetState) :
    config_preserved c (c.get_token ns).2.1 := by
  by_cases h : (ns.net ns.trace.length).status_code = 200
  · rw [get_token_pos c ns h]; exact ⟨rfl, rfl, rfl, rfl, rfl, rfl⟩
  · rw [get_token_neg c ns h]; exact ⟨rfl, rfl, rfl, rfl, rfl, rfl⟩

/-- `synthesize_to_bytes` preserves every configuration field. -/
lemma config_preserved_stb (c : AzureTTS) (text language : PyStr) (ns : NetState) :
    config_preserved c (c.synthesize_to_bytes text language ns).2.1 := by
  by_cases h : (ns.net ns.trace.length).status_code = 200
  · rw [stb_pos c text language ns h]; exact ⟨rfl, rfl, rfl, rfl, rfl, rfl⟩
  · rw [stb_neg_tok c text language ns h]; exact ⟨rfl, rfl, rfl, rfl, rfl, rfl⟩

/-- The stream variant returns the same client as the bytes variant. -/
lemma stream_client (c : AzureTTS) (text language : PyStr) (ns : NetState) :
    (c.synthesize_to_stream text language ns).2.1
      = (c.synthesize_to_bytes text language ns).2.1 := by
  unfold AzureTTS.synthesize_to_stream
  rcases hr : c.synthesize_to_bytes text language ns with ⟨r, c1, ns1⟩
  cases r <;> rfl

/-- The file variant returns the same client as the bytes variant. -/
lemma file_client (c : AzureTTS) (text filename language : PyStr) (ns : NetState) :
    (c.synthesize_to_file text filename language ns).2.1
      = (c.synthesize_to_bytes text language ns).2.1 := by
  unfold AzureTTS.synthesize_to_file
  rcases hr : c.synthesize_to_bytes text language ns with ⟨r, c1, ns1⟩
  cases r <;> rfl

/-- C8: every client operation — `get_token`, `synthesize_to_bytes`,
`synthesize_to_stream`, `synthesize_to_file` and the legacy `synthesize`
alias — leaves the subscription key, region, voice, output format and both
constructed URLs unchanged (`build_ssml` is a pure function of the client
and cannot mutate it); only the cached access token can change. -/
theorem client_config_frame (c : AzureTTS) (text filename language : PyStr)
    (ns : NetState) :
    config_preserved c (c.get_token ns).2.1
    ∧ config_preserved c (c.synthesize_to_bytes text language ns).2.1
    ∧ config_preserved c (c.synthesize_to_stream text language ns).2.1
    ∧ config_preserved c (c.synthesize_to_file text filename language ns).2.1
    ∧ config_preserved c (c.synthesize text filename ns).2.1 := by
  refine ⟨config_preserved_get_token c ns, config_preserved_stb c text language ns,
    ?_, ?_, ?_⟩
  · rw [stream_client]; exact config_preserved_stb c text language ns
  · rw [file_client]; exact config_preserved_stb c text language ns
  · show config_preserved c (c.synthesize_to_file text filename (str2l "en-US") ns).2.1
    rw [file_client]; exact config_preserved_stb c text (str2l "en-US") ns

/-! ## The shape of `dedent` on the SSML template -/

/-- Splitting a newline-free string yields that single line. -/
lemma splitLines_no_nl (s : PyStr) (h : '\n' ∉ s) : splitLines s = [s] := by
  induction s with
  | nil => rfl
  | cons c cs ih =>
    have hc : ¬ c = '\n' := fun hh => h (hh ▸ List.mem_cons_self c cs)
    have h' : '\n' ∉ cs := fun hh => h (List.mem_cons_of_mem c hh)
    simp [splitLines, hc, ih h']

/-- Splitting peels off a newline-free first line. -/
lemma splitLines_append (a b : PyStr) (h : '\n' ∉ a) :
    splitLines (a ++ '\n' :: b) = a :: splitLines b := by
  induction a with
  | nil => simp [splitLines]
  | cons c cs ih =>
    have hc : ¬ c = '\n' := fun hh => h (hh ▸ List.mem_cons_self c cs)
    have h' : '\n' ∉ cs := fun hh => h (List.mem_cons_of_mem c hh)
    simp [splitLines, hc, ih h']

/-- A line with a non-`[ \t]` character in it is not blanked. -/
lemma blankWsLine_eq_self {l : PyStr} {c : Char} (hm : c ∈ l) (hc : isPyWs c = false) :
    blankWsLine l = l := by
  have hall : l.all isPyWs = false :=
    List.all_eq_false.mpr ⟨c, hm, by simp [hc]⟩
  simp [blankWsLine, hall]

/-- A line with a non-`[ \t]` character passes the indent-collecting
filter. -/
lemma any_not_ws {l : PyStr} {c : Char} (hm : c ∈ l) (hc : isPyWs c = false) :
    l.any (fun x => !isPyWs x) = true :=
  List.any_eq_true.mpr ⟨c, hm, by simp [hc]⟩

/-- A space is `[ \t]` whitespace. -/
lemma isPyWs_space : isPyWs ' ' = true := rfl

/-- The leading-whitespace run of `n` spaces followed by anything. -/
lemma takeWhile_sp (n : Nat) (l : PyStr) :
    (sp n ++ l).takeWhile isPyWs = sp n ++ l.takeWhile isPyWs := by
  induction n with
  | zero => simp [sp]
  | succ m ih =>
    simp only [sp, List.replicate_succ, List.cons_append, List.takeWhile_cons,
      isPyWs_space, if_true]
    exact congrArg (' ' :: ·) ih

/-- A string whose own leading-whitespace run is empty keeps it empty
under appending. -/
lemma takeWhile_append_nil {a : PyStr} (b : PyStr) (ha : a.takeWhile isPyWs = [])
    (hne : a ≠ []) : (a ++ b).takeWhile isPyWs = [] := by
  cases a with
  | nil => exact absurd rfl hne
  | cons c cs =>
    rw [List.takeWhile_cons] at ha
    by_cases hc : isPyWs c = true
    · rw [if_pos hc] at ha; cases ha
    · have hc' : isPyWs c = false := by revert hc; cases isPyWs c <;> simp
      simp [List.takeWhile_cons, hc']

/-- `lcp` of a list with nothing is nothing. -/
lemma lcp_nil_left (b : PyStr) : lcp [] b = [] := by cases b <;> rfl

/-- `lcp` strips a common prefix. -/
lemma lcp_append (a b c : PyStr) : lcp (a ++ b) (a ++ c) = a ++ lcp b c := by
  induction a with
  | nil => simp
  | cons x xs ih => simp [lcp, ih]

/-- `lcp` of a string with an extension of itself is the string. -/
lemma lcp_append_self (a r : PyStr) : lcp a (a ++ r) = a := by
  have h := lcp_append a [] r
  simpa [lcp_nil_left] using h

/-- Removing the margin from a line that starts with it. -/
lemma dedentLine_append (m r : PyStr) : dedentLine m (m ++ r) = r := by
  have h : m.isPrefixOf (m ++ r) = true :=
    List.isPrefixOf_iff_prefix.mpr (List.prefix_append m r)
  simp [dedentLine, h, List.drop_left]

/-- The single-line markup template, following the spec's words: language,
voice and text interpolated verbatim with nothing else around them
(`<speak ...><voice name='{voice}'>{text}</voice></speak>` on one line). -/
def spec_single_line_markup (voice text language : PyStr) : PyStr :=
  str2l "<speak version='1.0' xmlns='http://www.w3.org/2001/10/synthesis' xml:lang='"
  ++ language ++ str2l "'><voice name='" ++ voice ++ str2l "'>"
  ++ text ++ str2l "</voice></speak>"

/-- The markup document the code actually produces (for newline-free
interpolations with some non-whitespace in the text): the dedented
multi-line template, with text, voice and language interpolated verbatim
and the indentation 4/8 spaces of the dedented source template. -/
def ssml_dedented (voice text language : PyStr) : PyStr :=
  str2l "<speak version='1.0' xmlns='http://www.w3.org/2001/10/synthesis' xml:lang='"
  ++ language ++ str2l "'>\n    <voice name='" ++ voice ++ str2l "'>\n        "
  ++ text ++ str2l "\n    </voice>\n</speak>"

/-- Closed form of `_build_ssml`: when language, voice and text contain no
newline and the text has at least one non-`[ \t]` character, `dedent`
removes exactly the 12-space margin and the result is the multi-line
template with all three interpolations verbatim. -/
lemma build_ssml_eq_core (c : AzureTTS) (text language : PyStr)
    (hl : '\n' ∉ language) (hv : '\n' ∉ c.voice) (ht : '\n' ∉ text)
    (hw : ∃ ch, ch ∈ text ∧ isPyWs ch = false) :
    c.build_ssml text language = ssml_dedented c.voice text language := by
  obtain ⟨w, hw_mem, hw_ws⟩ := hw
  have m1 : '\n' ∉ str2l "<speak version='1.0' xmlns='http://www.w3.org/2001/10/synthesis' xml:lang='" := by decide
  have m2 : '\n' ∉ str2l "'>" := by decide
  have m3 : '\n' ∉ str2l "<voice name='" := by decide
  have m4 : '\n' ∉ str2l "</voice>" := by decide
  have m5 : '\n' ∉ str2l "</speak>" := by decide
  have msp : ∀ n, '\n' ∉ sp n := by
    intro n h
    rw [sp, List.mem_replicate] at h
    exact absurd h.2 (by decide)
  have hn1 : '\n' ∉ sp 12
      ++ (str2l "<speak version='1.0' xmlns='http://www.w3.org/2001/10/synthesis' xml:lang='"
        ++ (language ++ str2l "'>")) := by
    simp only [List.mem_append]
    rintro (h | h | h | h)
    exacts [msp 12 h, m1 h, hl h, m2 h]
  have hn2 : '\n' ∉ sp 16 ++ (str2l "<voice name='" ++ (c.voice ++ str2l "'>")) := by
    simp only [List.mem_append]
    rintro (h | h | h | h)
    exacts [msp 16 h, m3 h, hv h, m2 h]
  have hn3 : '\n' ∉ sp 20 ++ text := by
    simp only [List.mem_append]
    rintro (h | h)
    exacts [msp 20 h, ht h]
  have hn4 : '\n' ∉ sp 16 ++ str2l "</voice>" := by
    simp only [List.mem_append]
    rintro (h | h)
    exacts [msp 16 h, m4 h]
  have hn5 : '\n' ∉ sp 12 ++ str2l "</speak>" := by
    simp only [List.mem_append]
    rintro (h | h)
    exacts [msp 12 h, m5 h]
  have hraw : ssml_raw c.voice text language =
      (sp 12 ++ (str2l "<speak version='1.0' xmlns='http://www.w3.org/2001/10/synthesis' xml:lang='"
        ++ (language ++ str2l "'>"))) ++ '\n' ::
      ((sp 16 ++ (str2l "<voice name='" ++ (c.voice ++ str2l "'>"))) ++ '\n' ::
      ((sp 20 ++ text) ++ '\n' ::
      ((sp 16 ++ str2l "</voice>") ++ '\n' ::
      (sp 12 ++ str2l "</speak>")))) := by
    simp [ssml_raw, List.append_assoc]
  have hsplit : splitLines (ssml_raw c.voice text language) =
      [sp 12 ++ (str2l "<speak version='1.0' xmlns='http://www.w3.org/2001/10/synthesis' xml:lang='"
        ++ (language ++ str2l "'>")),
       sp 16 ++ (str2l "<voice name='" ++ (c.voice ++ str2l "'>")),
       sp 20 ++ text,
       sp 16 ++ str2l "</voice>",
       sp 12 ++ str2l "</speak>"] := by
    rw [hraw, splitLines_append _ _ hn1, splitLines_append _ _ hn2,
      splitLines_append _ _ hn3, splitLines_append _ _ hn4, splitLines_no_nl _ hn5]
  have mem1 : '<' ∈ sp 12
      ++ (str2l "<speak version='1.0' xmlns='http://www.w3.org/2001/10/synthesis' xml:lang='"
        ++ (language ++ str2l "'>")) :=
    List.mem_append.mpr (Or.inr (List.mem_append.mpr (Or.inl (by decide))))
  have mem2 : '<' ∈ sp 16 ++ (str2l "<voice name='" ++ (c.voice ++ str2l "'>")) :=
    List.mem_append.mpr (Or.inr (List.mem_append.mpr (Or.inl (by decide))))
  have mem3 : w ∈ sp 20 ++ text := List.mem_append.mpr (Or.inr hw_mem)
  have mem4 : '<' ∈ sp 16 ++ str2l "</voice>" :=
    List.mem_append.mpr (Or.inr (by decide))
  have mem5 : '<' ∈ sp 12 ++ str2l "</speak>" :=
    List.mem_append.mpr (Or.inr (by decide))
  have hws_lt : isPyWs '<' = false := by decide
  have hb1 := blankWsLine_eq_self mem1 hws_lt
  have hb2 := blankWsLine_eq_self mem2 hws_lt
  have hb3 := blankWsLine_eq_self mem3 hw_ws
  have hb4 := blankWsLine_eq_self mem4 hws_lt
  have hb5 := blankWsLine_eq_self mem5 hws_lt
  have ha1 := any_not_ws mem1 hws_lt
  have ha2 := any_not_ws mem2 hws_lt
  have ha3 := any_not_ws mem3 hw_ws
  have ha4 := any_not_ws mem4 hws_lt
  have ha5 := any_not_ws mem5 hws_lt
  have hsplit16 : sp 16 = sp 12 ++ sp 4 := by decide
  have hsplit20 : sp 20 = sp 12 ++ sp 8 := by decide
  have htw1 : (sp 12
      ++ (str2l "<speak version='1.0' xmlns='http://www.w3.org/2001/10/synthesis' xml:lang='"
        ++ (language ++ str2l "'>"))).takeWhile isPyWs = sp 12 := by
    rw [takeWhile_sp, takeWhile_append_nil _ (by decide) (by decide)]
    simp
  have htw2 : (sp 16 ++ (str2l "<voice name='" ++ (c.voice ++ str2l "'>"))).takeWhile isPyWs
      = sp 16 := by
    rw [takeWhile_sp, takeWhile_append_nil _ (by decide) (by decide)]
    simp
  have htw3 : (sp 20 ++ text).takeWhile isPyWs = sp 20 ++ text.takeWhile isPyWs :=
    takeWhile_sp 20 text
  have htw4 : (sp 16 ++ str2l "</voice>").takeWhile isPyWs = sp 16 := by
    rw [takeWhile_sp, (by decide : (str2l "</voice>").takeWhile isPyWs = [])]
    simp
  have htw5 : (sp 12 ++ str2l "</speak>").takeWhile isPyWs = sp 12 := by
    rw [takeWhile_sp, (by decide : (str2l "</speak>").takeWhile isPyWs = [])]
    simp
  have e1 : lcp (sp 12) (sp 16) = sp 12 := by
    rw [hsplit16]; exact lcp_append_self _ _
  have e2 : lcp (sp 12) (sp 20 ++ text.takeWhile isPyWs) = sp 12 := by
    rw [hsplit20, List.append_assoc]; exact lcp_append_self _ _
  have e3 : lcp (sp 12) (sp 12) = sp 12 := by
    have h := lcp_append_self (sp 12) []
    simpa using h
  have hmargin : margin
      [sp 12 ++ (str2l "<speak version='1.0' xmlns='http://www.w3.org/2001/10/synthesis' xml:lang='"
        ++ (language ++ str2l "'>")),
       sp 16 ++ (str2l "<voice name='" ++ (c.voice ++ str2l "'>")),
       sp 20 ++ text,
       sp 16 ++ str2l "</voice>",
       sp 12 ++ str2l "</speak>"] = sp 12 := by
    unfold margin
    simp only [List.filter_cons, ha1, ha2, ha3, ha4, ha5, if_true, List.filter_nil,
      List.map_cons, List.map_nil]
    rw [htw1, htw2, htw3, htw4, htw5]
    simp only [List.foldl_cons, List.foldl_nil]
    rw [e1, e2, e1, e3]
  have hd1 : dedentLine (sp 12)
      (sp 12 ++ (str2l "<speak version='1.0' xmlns='http://www.w3.org/2001/10/synthesis' xml:lang='"
        ++ (language ++ str2l "'>")))
      = str2l "<speak version='1.0' xmlns='http://www.w3.org/2001/10/synthesis' xml:lang='"
        ++ (language ++ str2l "'>") := dedentLine_append _ _
  have hd2 : dedentLine (sp 12) (sp 16 ++ (str2l "<voice name='" ++ (c.voice ++ str2l "'>")))
      = sp 4 ++ (str2l "<voice name='" ++ (c.voice ++ str2l "'>")) := by
    rw [hsplit16, List.append_assoc]; exact dedentLine_append _ _
  have hd3 : dedentLine (sp 12) (sp 20 ++ text) = sp 8 ++ text := by
    rw [hsplit20, List.append_assoc]; exact dedentLine_append _ _
  have hd4 : dedentLine (sp 12) (sp 16 ++ str2l "</voice>") = sp 4 ++ str2l "</voice>" := by
    rw [hsplit16, List.append_assoc]; exact dedentLine_append _ _
  have hd5 : dedentLine (sp 12) (sp 12 ++ str2l "</speak>") = str2l "</speak>" :=
    dedentLine_append _ _
  have d1 : str2l "'>\n    <voice name='" = str2l "'>" ++ '\n' :: (sp 4 ++ str2l "<voice name='") := by decide
  have d2 : str2l "'>\n        " = str2l "'>" ++ '\n' :: sp 8 := by decide
  have d3 : str2l "\n    </voice>\n</speak>"
      = '\n' :: (sp 4 ++ (str2l "</voice>" ++ '\n' :: str2l "</speak>")) := by decide
  show dedent (ssml_raw c.voice text language) = ssml_dedented c.voice text language
  unfold dedent
  rw [hsplit]
  simp only [List.map_cons, List.map_nil]
  rw [hb1, hb2, hb3, hb4, hb5, hmargin, hd1, hd2, hd3, hd4, hd5]
  unfold ssml_dedented
  rw [d1, d2, d3]
  simp [joinLines, List.append_assoc]

/-- C4 counterexample: already for text `hi` and default language the
produced markup is not the single-line template of the spec — the code
inserts newlines and indentation around the text. -/
theorem build_ssml_not_single_line :
    tts0.build_ssml (str2l "hi") (str2l "en-US")
      ≠ spec_single_line_markup (str2l "en-US-JessaNeural") (str2l "hi") (str2l "en-US") := by
  decide

/-- C4 (amended): for text with no newline and at least one
non-whitespace character, and newline-free voice and language, the markup
is exactly the dedented multi-line template `ssml_dedented` — language,
voice and text interpolated verbatim, with no escaping, but with
newline-and-indentation framing around the text. -/
theorem build_ssml_template_spec (c : AzureTTS) (text language : PyStr)
    (hl : '\n' ∉ language) (hv : '\n' ∉ c.voice) (ht : '\n' ∉ text)
    (hw : ∃ ch, ch ∈ text ∧ isPyWs ch = false) :
    c.build_ssml text language = ssml_dedented c.voice text language :=
  build_ssml_eq_core c text language hl hv ht hw

/-- C4 witness: the template equality evaluated at text `hi`, language
`en-US` and the test client. -/
theorem build_ssml_template_spec_witness :
    tts0.build_ssml (str2l "hi") (str2l "en-US")
      = ssml_dedented (str2l "en-US-JessaNeural") (str2l "hi") (str2l "en-US") :=
  build_ssml_template_spec tts0 (str2l "hi") (str2l "en-US")
    (by decide) (by decide) (by decide) ⟨'h', by decide, by decide⟩

set_option maxRecDepth 4096 in
/-- C5 counterexample: for the whitespace-only text `\t` the produced
markup does not contain the text — the dedent pass blanks the
whitespace-only line, so the tab disappears entirely. -/
theorem build_ssml_tab_not_contained :
    ¬ str2l "\t" <:+: tts0.build_ssml (str2l "\t") (str2l "en-US") := by
  decide

/-- C5 (amended): `_build_ssml` is a pure function; for text with no
newline and at least one non-whitespace character, and newline-free voice
and language, its output contains the literal text, the configured voice
and `xml:lang='{language}'` as substrings; an omitted language argument
defaults to `en-US`. -/
theorem build_ssml_contains_spec (c : AzureTTS) (text language : PyStr)
    (hl : '\n' ∉ language) (hv : '\n' ∉ c.voice) (ht : '\n' ∉ text)
    (hw : ∃ ch, ch ∈ text ∧ isPyWs ch = false) :
    text <:+: c.build_ssml text language
    ∧ c.voice <:+: c.build_ssml text language
    ∧ (str2l "xml:lang='" ++ language ++ str2l "'") <:+: c.build_ssml text language
    ∧ c.build_ssml text = c.build_ssml text (str2l "en-US") := by
  rw [build_ssml_eq_core c text language hl hv ht hw]
  have s1 : str2l "<speak version='1.0' xmlns='http://www.w3.org/2001/10/synthesis' xml:lang='"
      = str2l "<speak version='1.0' xmlns='http://www.w3.org/2001/10/synthesis' "
        ++ str2l "xml:lang='" := by decide
  have s2 : str2l "'>\n    <voice name='" = str2l "'" ++ str2l ">\n    <voice name='" := by
    decide
  refine ⟨?_, ?_, ?_, rfl⟩
  · exact ⟨str2l "<speak version='1.0' xmlns='http://www.w3.org/2001/10/synthesis' xml:lang='"
        ++ language ++ str2l "'>\n    <voice name='" ++ c.voice ++ str2l "'>\n        ",
      str2l "\n    </voice>\n</speak>", by simp [ssml_dedented, List.append_assoc]⟩
  · exact ⟨str2l "<speak version='1.0' xmlns='http://www.w3.org/2001/10/synthesis' xml:lang='"
        ++ language ++ str2l "'>\n    <voice name='",
      str2l "'>\n        " ++ text ++ str2l "\n    </voice>\n</speak>",
      by simp [ssml_dedented, List.append_assoc]⟩
  · refine ⟨str2l "<speak version='1.0' xmlns='http://www.w3.org/2001/10/synthesis' ",
      str2l ">\n    <voice name='" ++ c.voice ++ str2l "'>\n        "
        ++ text ++ str2l "\n    </voice>\n</speak>", ?_⟩
    rw [ssml_dedented, s1, s2]
    simp [List.append_assoc]

/-- C5 witness: containment evaluated at text `Hello, world!`, language
`fr-FR` and the test client (with its voice `en-US-JessaNeural`). -/
theorem build_ssml_contains_spec_witness :
    str2l "Hello, world!" <:+: tts0.build_ssml (str2l "Hello, world!") (str2l "fr-FR")
    ∧ str2l "en-US-JessaNeural" <:+: tts0.build_ssml (str2l "Hello, world!") (str2l "fr-FR")
    ∧ (str2l "xml:lang='" ++ str2l "fr-FR" ++ str2l "'")
        <:+: tts0.build_ssml (str2l "Hello, world!") (str2l "fr-FR") := by
  have h := build_ssml_contains_spec tts0 (str2l "Hello, world!") (str2l "fr-FR")
    (by decide) (by decide) (by decide) ⟨'H', by decide, by decide⟩
  exact ⟨h.1, h.2.1, h.2.2.1⟩
